import Mathlib

/-!
Shallow embedding of the django-oscar promotion engine: the offer models
(src/oscar/apps/offer/models.py) and the application loop
(src/src/oscar/apps/offer/utils.py), together with theorems that check the
claims of the specification against these definitions.

Conventions of the embedding:
- Decimal amounts are rationals; Decimal.quantize with ROUND_DOWN is
  truncation towards zero at two decimal places, and quantize with the
  default rounding is round-half-even at two decimal places.
- Nullable model fields are Option values.  Python truthiness on such a
  field (if self.field) is: present and nonzero.
- Database-backed collections (range membership tables, category sets) are
  lists of ids carried by the structures.
- External collaborators (the product blacklist hook from settings, custom
  proxy classes loaded by dotted path, the per-user usage aggregate, the
  rounding override) are parameters, collected in an Env structure.
- Exceptions are modelled with Except String; a raising code path is an
  Except.error value.
-/

namespace Oscar

/-- A catalogue category as seen by Range.contains_product.
Modelled from the spec: the catalogue app is not part of the source under
review; per the spec, category matching uses descendant categories via
ancestor-chain containment, so a category carries its id and the ids of its
ancestors. -/
structure Category where
  id : Nat
  ancestor_ids : List Nat
deriving DecidableEq, Repr

/-- Modelled from the spec: Category.is_descendant_of (catalogue app absent
from the source) is ancestor-chain containment. -/
def Category.is_descendant_of (c t : Category) : Bool :=
  t.id ∈ c.ancestor_ids

/-- A catalogue product, restricted to the attributes the offer engine
reads: id, product-class id, categories, and the discountable flag. -/
structure Product where
  id : Nat
  product_class_id : Option Nat
  categories : List Category
  is_discountable : Bool
deriving DecidableEq, Repr

/-- offer.Range: a product-membership predicate (models.py lines 727-888).
The many-to-many tables are carried as id lists; included_categories carries
the Category rows themselves as contains_product compares them. -/
structure Range where
  name : String
  includes_all_products : Bool
  included_product_ids : List Nat
  excluded_product_ids : List Nat
  class_ids : List Nat
  included_categories : List Category
  proxy_class : Option String
deriving DecidableEq, Repr

/-- Modelled from the spec: a basket line, the external entity the engine
mutates.  It exposes product identity, unit price (unit_effective_price),
quantity, stock-record presence, and the two per-pass counters; the benefit
counter is affected_quantity, and quantity_without_discount is quantity
minus affected_quantity. -/
structure Line where
  product : Product
  has_stockrecord : Bool
  price : ℚ
  quantity : Nat
  affected_quantity : Nat
  discount_total : ℚ
deriving DecidableEq, Repr

def Line.quantity_without_discount (l : Line) : Nat :=
  l.quantity - l.affected_quantity

/-- Modelled from the spec: the line mutation hook (line.discount in the
basket app, absent from the source) records an applied discount amount and
marks a quantity of units as discounted. -/
def Line.discount (l : Line) (amount : ℚ) (quantity : Nat) : Line :=
  { l with
    discount_total := l.discount_total + amount
    affected_quantity := l.affected_quantity + quantity }

/-- The default line used for out-of-range list reads. -/
def dLine : Line :=
  { product := { id := 0, product_class_id := none, categories := [],
                 is_discountable := false }
    has_stockrecord := false
    price := 0
    quantity := 0
    affected_quantity := 0
    discount_total := 0 }

/-- The basket as the engine sees it (the SetOfLines line collection of the
application pass).  Modelled from the spec: an iterable of lines. -/
structure Basket where
  lines : List Line
deriving DecidableEq, Repr

def Basket.all_lines (b : Basket) : List Line := b.lines

/-- offer.Condition row (models.py lines 409-443): range, type
discriminator, value, optional custom class path. -/
structure Condition where
  range : Option Range
  type : String
  value : Option ℚ
  proxy_class : Option String
deriving DecidableEq, Repr

def Condition.NONE : String := "None"

/-- offer.Benefit row (models.py lines 514-571).  The nullable value field
is modelled as present: a null value raises TypeError in every benefit
computation that reads it, so benefits entering the engine carry a value. -/
structure Benefit where
  range : Option Range
  type : String
  value : ℚ
  max_affected_items : Option Nat
  proxy_class : Option String
deriving DecidableEq, Repr

def Benefit.PERCENTAGE : String := "Percentage"
def Benefit.SHIPPING_PERCENTAGE : String := "Shipping percentage"
def Benefit.SHIPPING_ABSOLUTE : String := "Shipping absolute"
def Benefit.SHIPPING_FIXED_PRICE : String := "Shipping fixed price"

/-- offer.ConditionalOffer row (models.py lines 60-172): type, status,
condition, benefit, priority, availability window, usage caps and running
totals.  Datetimes are integers. -/
structure ConditionalOffer where
  name : String
  offer_type : String
  status : String
  condition : Condition
  benefit : Benefit
  priority : Int
  start_datetime : Option Int
  end_datetime : Option Int
  max_global_applications : Option Nat
  max_user_applications : Option Nat
  max_basket_applications : Option Nat
  max_discount : Option ℚ
  total_discount : ℚ
  num_applications : Nat
  num_orders : Nat
deriving DecidableEq, Repr

def ConditionalOffer.OPEN : String := "Open"
def ConditionalOffer.SUSPENDED : String := "Suspended"
def ConditionalOffer.CONSUMED : String := "Consumed"

/-- ApplicationResult (models.py lines 943-1014) as a tagged union.
BasketDiscount carries its amount; ShippingDiscount and PostOrderAction are
the two final result kinds. -/
inductive AppResult
  | basketDiscount (amount : ℚ)
  | shippingDiscount
  | postOrderAction (description : String)
deriving DecidableEq, Repr

/-- BasketDiscount.is_successful is discount > 0; the base class leaves
is_successful False, and ShippingDiscount / PostOrderAction set it True. -/
def AppResult.is_successful : AppResult → Bool
  | .basketDiscount a => a > 0
  | .shippingDiscount => true
  | .postOrderAction _ => true

/-- The base class leaves is_final False (so BasketDiscount is repeatable);
ShippingDiscount and PostOrderAction set is_final True. -/
def AppResult.is_final : AppResult → Bool
  | .basketDiscount _ => false
  | .shippingDiscount => true
  | .postOrderAction _ => true

/-- ZERO_DISCOUNT = BasketDiscount(D(0.00)) (models.py line 991). -/
def ZERO_DISCOUNT : AppResult := .basketDiscount 0

/-- Behaviour of a custom condition class loaded via proxy_class: external
code with the Condition interface. -/
structure CustomCondition where
  is_satisfied : ConditionalOffer → Basket → Bool
  consume_items : ConditionalOffer → Basket → List (Nat × ℚ × Nat) → Basket

/-- The object returned by Condition.proxy(): the base Condition (stub
behaviour), the NoneCondition proxy, or a loaded custom class. -/
inductive CondProxy
  | base (c : Condition)
  | noneCond (c : Condition)
  | custom (impl : CustomCondition)

/-- Behaviour of a custom benefit class loaded via proxy_class. -/
structure CustomBenefit where
  apply : Basket → CondProxy → ConditionalOffer → AppResult × Basket

/-- The object returned by Benefit.proxy() when it does not raise. -/
inductive BenefitProxy
  | percentage (b : Benefit)
  | shippingAbsolute (b : Benefit)
  | shippingFixedPrice (b : Benefit)
  | shippingPercentage (b : Benefit)
  | custom (impl : CustomBenefit)

/-- The external collaborators of the engine: the settings blacklist hook,
loaded custom proxy classes keyed by dotted path, and the optional rounding
override (settings.OSCAR_OFFER_ROUNDING_FUNCTION). -/
structure Env where
  blacklist : Product → Bool
  rangeProxy : String → Product → Bool
  condProxy : String → CustomCondition
  benefitProxy : String → CustomBenefit
  rounding : Option (ℚ → ℚ)

/-- An Env with no blacklist, no custom classes, default rounding. -/
def defaultEnv : Env :=
  { blacklist := fun _ => false
    rangeProxy := fun _ _ => false
    condProxy := fun _ =>
      { is_satisfied := fun _ _ => false
        consume_items := fun _ b _ => b }
    benefitProxy := fun _ => { apply := fun b _ _ => (ZERO_DISCOUNT, b) }
    rounding := none }

/-- Decimal.quantize at two places with ROUND_DOWN: truncation towards
zero.  This is the default branch of Benefit.round (models.py lines
673-679). -/
def roundDown2dp (x : ℚ) : ℚ :=
  if 0 ≤ x then (Int.floor (100 * x) : ℚ) / 100
  else (Int.ceil (100 * x) : ℚ) / 100

/-- Round a rational to the nearest integer, ties to even: the default
Decimal rounding mode ROUND_HALF_EVEN. -/
def roundHalfEvenInt (x : ℚ) : ℤ :=
  if x - Int.floor x < 1 / 2 then Int.floor x
  else if 1 / 2 < x - Int.floor x then Int.floor x + 1
  else if Int.floor x % 2 = 0 then Int.floor x else Int.floor x + 1

/-- Decimal.quantize at two places with the default rounding mode
(ROUND_HALF_EVEN), as used by ShippingPercentageDiscountBenefit. -/
def roundHalfEven2dp (x : ℚ) : ℚ :=
  (roundHalfEvenInt (100 * x) : ℚ) / 100

/-- Benefit.round (models.py lines 673-679): the settings override when
present, else truncation to two decimal places. -/
def Benefit.round (env : Env) (amount : ℚ) : ℚ :=
  match env.rounding with
  | some f => f amount
  | none => roundDown2dp amount

/-- Range.contains_product (models.py lines 819-851): blacklist hook, then
the custom proxy class if one is set, then excluded ids, the
all-products flag, product-class ids, included ids, and finally category
containment (equality or descendant). -/
def Range.contains_product (blacklist : Product → Bool)
    (rangeProxy : String → Product → Bool) (r : Range) (p : Product) :
    Bool :=
  if blacklist p then false
  else
    match r.proxy_class with
    | some name => rangeProxy name p
    | none =>
      if p.id ∈ r.excluded_product_ids then false
      else if r.includes_all_products then true
      else if (match p.product_class_id with
               | some c => r.class_ids.contains c
               | none => false) then true
      else if p.id ∈ r.included_product_ids then true
      else if p.categories.any (fun c =>
          r.included_categories.any (fun t =>
            c.id == t.id || c.is_descendant_of t)) then true
      else false

/-- Condition.proxy (models.py lines 427-443): a set custom class is
loaded; else the type is looked up in the class map, which only knows the
None kind; an unknown type falls through to the base Condition object. -/
def Condition.proxy (env : Env) (c : Condition) : CondProxy :=
  match c.proxy_class with
  | some name => .custom (env.condProxy name)
  | none =>
    if c.type = Condition.NONE then .noneCond c else .base c

/-- is_satisfied per proxy: the base Condition stub returns False
(models.py lines 467-473); NoneCondition returns True (lines 928-932);
a custom class runs its own code. -/
def CondProxy.is_satisfied (cp : CondProxy) (offer : ConditionalOffer)
    (basket : Basket) : Bool :=
  match cp with
  | .base _ => false
  | .noneCond _ => true
  | .custom impl => impl.is_satisfied offer basket

/-- consume_items: the base Condition body is pass (models.py lines
464-465), inherited by NoneCondition; a custom class may do anything.
Affected lines are (line index, discount, quantity) triples. -/
def CondProxy.consume_items (cp : CondProxy) (offer : ConditionalOffer)
    (basket : Basket) (affected_lines : List (Nat × ℚ × Nat)) : Basket :=
  match cp with
  | .base _ => basket
  | .noneCond _ => basket
  | .custom impl => impl.consume_items offer basket affected_lines

/-- Benefit.proxy (models.py lines 555-571): a set custom class is loaded;
else the type is looked up among the four built-in kinds; an unrecognised
type raises RuntimeError. -/
def Benefit.proxy (env : Env) (b : Benefit) : Except String BenefitProxy :=
  match b.proxy_class with
  | some name => .ok (.custom (env.benefitProxy name))
  | none =>
    if b.type = Benefit.PERCENTAGE then .ok (.percentage b)
    else if b.type = Benefit.SHIPPING_ABSOLUTE then
      .ok (.shippingAbsolute b)
    else if b.type = Benefit.SHIPPING_FIXED_PRICE then
      .ok (.shippingFixedPrice b)
    else if b.type = Benefit.SHIPPING_PERCENTAGE then
      .ok (.shippingPercentage b)
    else .error ("Unrecognised benefit type (" ++ b.type ++ ")")

/-- Benefit._effective_max_affected_items (models.py lines 681-686): the
cap when set (truthily: present and nonzero), else the 10000 sentinel. -/
def Benefit.effective_max_affected_items (b : Benefit) : Nat :=
  match b.max_affected_items with
  | some n => if n ≠ 0 then n else 10000
  | none => 10000

/-- Benefit.can_apply_benefit (models.py lines 688-692). -/
def Benefit.can_apply_benefit (l : Line) : Bool :=
  l.has_stockrecord && l.product.is_discountable

/-- unit_price (models.py lines 44-50): the relevant price of a line,
which is its unit_effective_price; the offer argument is unused. -/
def unit_price (_offer : ConditionalOffer) (l : Line) : ℚ := l.price

/-- Benefit.get_applicable_lines (models.py lines 694-721): lines whose
product is in range, benefit-applicable, with nonzero price and nonzero
undiscounted quantity, as (price, line index) pairs sorted cheapest first.
A missing range (the benefit has none and none is passed) raises
AttributeError when its membership is consulted. -/
def Benefit.get_applicable_lines (env : Env) (b : Benefit)
    (offer : ConditionalOffer) (basket : Basket) (range? : Option Range) :
    Except String (List (ℚ × Nat)) :=
  match (match range? with | some r => some r | none => b.range) with
  | none => .error "AttributeError: NoneType has no attribute contains"
  | some r =>
    .ok ((basket.all_lines.enum.filterMap (fun il =>
        let line := il.2
        if ¬ (r.contains_product env.blacklist env.rangeProxy
              line.product) then none
        else if ¬ Benefit.can_apply_benefit line then none
        else if unit_price offer line = 0 then none
        else if line.quantity_without_discount = 0 then none
        else some (unit_price offer line, il.1))).mergeSort
      (fun x y => x.1 ≤ y.1))

/-- The running state of the line walk in
PercentageDiscountBenefit.apply: the (mutated) lines, the accumulated
discount, the number of affected items, the affected-lines record, and the
remaining total-discount allowance. -/
structure PercState where
  lines : List Line
  discount : ℚ
  affected_items : Nat
  affected_lines : List (Nat × ℚ × Nat)
  avail : Option ℚ
deriving DecidableEq, Repr

/-- One iteration body of the line walk of
PercentageDiscountBenefit.apply (models.py lines 1064-1077): take the
line's undiscounted quantity bounded by the remaining item budget, round
the per-line discount, clamp it against the remaining allowance, record
the discount on the line and accumulate. -/
def percentStep (env : Env) (dp : ℚ) (max_affected : Nat) (price : ℚ)
    (idx : Nat) (st : PercState) : PercState :=
  let line := st.lines.getD idx dLine
  let qa := min line.quantity_without_discount
    (max_affected - st.affected_items)
  let ld0 := Benefit.round env (dp / 100 * price * (qa : ℚ))
  let ld := match st.avail with
    | some a => min ld0 a
    | none => ld0
  let avail := match st.avail with
    | some a => some (a - ld)
    | none => none
  { lines := st.lines.set idx ((st.lines.getD idx dLine).discount ld qa)
    discount := st.discount + ld
    affected_items := st.affected_items + qa
    affected_lines := st.affected_lines ++ [(idx, ld, qa)]
    avail := avail }

/-- The line walk of PercentageDiscountBenefit.apply (models.py lines
1058-1077): stop when the item budget is exhausted or the remaining
allowance is exactly zero; otherwise run one iteration body and continue.
A None discount percent raises TypeError when first used. -/
def percentLoop (env : Env) (dp? : Option ℚ) (max_affected : Nat) :
    List (ℚ × Nat) → PercState → Except String PercState
  | [], st => .ok st
  | (price, idx) :: rest, st =>
    if st.affected_items ≥ max_affected then .ok st
    else if st.avail = some 0 then .ok st
    else
      match dp? with
      | none => .error "TypeError: unsupported operand type NoneType"
      | some dp =>
        percentLoop env dp? max_affected rest
          (percentStep env dp max_affected price idx st)

/-- The computation phase of PercentageDiscountBenefit.apply (models.py
lines 1045-1077): resolve the discount percent (the override or the
benefit value), gather applicable lines, and walk them. -/
def PercentageDiscountBenefit.applyCore (env : Env) (b : Benefit)
    (offer : ConditionalOffer) (basket : Basket)
    (discount_percent : Option ℚ) (max_total_discount : Option ℚ) :
    Except String PercState := do
  let dp? := match discount_percent with
    | some v => some v
    | none => some b.value
  let tuples ← b.get_applicable_lines env offer basket none
  percentLoop env dp? b.effective_max_affected_items tuples
    { lines := basket.lines
      discount := 0
      affected_items := 0
      affected_lines := []
      avail := max_total_discount }

/-- PercentageDiscountBenefit.apply (models.py lines 1045-1081): run the
line walk; if any discount was produced, consume the condition items;
return BasketDiscount of the total. -/
def PercentageDiscountBenefit.apply (env : Env) (b : Benefit)
    (basket : Basket) (condition : CondProxy) (offer : ConditionalOffer)
    (discount_percent : Option ℚ) (max_total_discount : Option ℚ) :
    Except String (AppResult × Basket) := do
  let st ← PercentageDiscountBenefit.applyCore env b offer basket
    discount_percent max_total_discount
  if st.discount > 0 then
    .ok (.basketDiscount st.discount,
         condition.consume_items offer (Basket.mk st.lines)
           st.affected_lines)
  else
    .ok (.basketDiscount st.discount, Basket.mk st.lines)

/-- ShippingAbsoluteDiscountBenefit.shipping_discount (models.py lines
1112-1113). -/
def ShippingAbsoluteDiscountBenefit.shipping_discount (b : Benefit)
    (charge : ℚ) : ℚ :=
  min charge b.value

/-- ShippingFixedPriceBenefit.shipping_discount (models.py lines
1129-1132). -/
def ShippingFixedPriceBenefit.shipping_discount (b : Benefit)
    (charge : ℚ) : ℚ :=
  if charge < b.value then 0 else charge - b.value

/-- ShippingPercentageDiscountBenefit.shipping_discount (models.py lines
1148-1150): quantize at two places with the default rounding mode. -/
def ShippingPercentageDiscountBenefit.shipping_discount (b : Benefit)
    (charge : ℚ) : ℚ :=
  roundHalfEven2dp (charge * b.value / 100)

/-- ShippingBenefit.apply (models.py lines 1091-1093): consume the
condition items with an empty affected-lines tuple and return the shared
final, successful SHIPPING_DISCOUNT result. -/
def ShippingBenefit.apply (basket : Basket) (condition : CondProxy)
    (offer : ConditionalOffer) : AppResult × Basket :=
  (.shippingDiscount, condition.consume_items offer basket [])

/-- Dispatch of proxy().apply(basket, condition, offer): the percentage
benefit runs its line walk (with no percent override and no total-discount
allowance); the three shipping benefits share ShippingBenefit.apply; a
custom class runs its own code. -/
def BenefitProxy.apply (env : Env) (bp : BenefitProxy) (basket : Basket)
    (condition : CondProxy) (offer : ConditionalOffer) :
    Except String (AppResult × Basket) :=
  match bp with
  | .percentage b =>
    PercentageDiscountBenefit.apply env b basket condition offer none none
  | .shippingAbsolute _ => .ok (ShippingBenefit.apply basket condition offer)
  | .shippingFixedPrice _ => .ok (ShippingBenefit.apply basket condition offer)
  | .shippingPercentage _ => .ok (ShippingBenefit.apply basket condition offer)
  | .custom impl => .ok (impl.apply basket condition offer)

/-- ConditionalOffer.is_suspended (models.py lines 205-207). -/
def ConditionalOffer.is_suspended (o : ConditionalOffer) : Bool :=
  o.status = ConditionalOffer.SUSPENDED

/-- The list of caps built by ConditionalOffer.get_max_applications
(models.py lines 277-285), starting from the 10000 sentinel.  Each cap is
appended when truthy (present and nonzero); the per-user cap additionally
needs a known user.  num_user_apps is the external per-user usage
aggregate (get_num_user_applications). -/
def ConditionalOffer.max_applications_limits (num_user_apps : Nat → Nat)
    (o : ConditionalOffer) (user : Option Nat) : List ℤ :=
  [10000]
  ++ (match o.max_user_applications, user with
      | some m, some u =>
        if m ≠ 0 then [max 0 ((m : ℤ) - (num_user_apps u : ℤ))] else []
      | _, _ => [])
  ++ (match o.max_basket_applications with
      | some m => if m ≠ 0 then [(m : ℤ)] else []
      | none => [])
  ++ (match o.max_global_applications with
      | some m =>
        if m ≠ 0 then [max 0 ((m : ℤ) - (o.num_applications : ℤ))] else []
      | none => [])

/-- ConditionalOffer.get_max_applications (models.py lines 267-286):
0 as soon as a truthy max_discount has been reached by total_discount;
otherwise the minimum of the collected caps. -/
def ConditionalOffer.get_max_applications (num_user_apps : Nat → Nat)
    (o : ConditionalOffer) (user : Option Nat) : ℤ :=
  if (match o.max_discount with
      | some md => decide (md ≠ 0) && decide (o.total_discount ≥ md)
      | none => false) then 0
  else (o.max_applications_limits num_user_apps user).foldl min 10000

/-- ConditionalOffer.save (models.py lines 179-187): unless suspended,
re-derive the status from the no-user maximum-applications computation. -/
def ConditionalOffer.save (num_user_apps : Nat → Nat)
    (o : ConditionalOffer) : ConditionalOffer :=
  if ¬ o.is_suspended then
    if o.get_max_applications num_user_apps none = 0 then
      { o with status := ConditionalOffer.CONSUMED }
    else
      { o with status := ConditionalOffer.OPEN }
  else o

/-- ConditionalOffer.is_available (models.py lines 219-234): false when
suspended, false when a date-window predicate fires, else whether the
maximum applications for the user is positive.  test_date is the
caller-side now() when no explicit date is given. -/
def ConditionalOffer.is_available (num_user_apps : Nat → Nat)
    (o : ConditionalOffer) (user : Option Nat) (test_date : Int) : Bool :=
  if o.is_suspended then false
  else
    let predicates :=
      (match o.start_datetime with
       | some s => [decide (s > test_date)]
       | none => [])
      ++ (match o.end_datetime with
          | some e => [decide (test_date > e)]
          | none => [])
    if predicates.any id then false
    else o.get_max_applications num_user_apps user > 0

/-- ConditionalOffer.apply_benefit (models.py lines 245-252): the zero
discount when the condition proxy is not satisfied; otherwise delegate to
the benefit proxy (whose resolution may raise). -/
def ConditionalOffer.apply_benefit (env : Env) (o : ConditionalOffer)
    (basket : Basket) : Except String (AppResult × Basket) :=
  let cp := o.condition.proxy env
  if ¬ cp.is_satisfied o basket then .ok (ZERO_DISCOUNT, basket)
  else do
    let bp ← o.benefit.proxy env
    bp.apply env basket cp o

/-- The per-offer while loop of Applicator.apply_offers (utils.py lines
52-59), with the iteration budget as fuel (the loop guard
num_applications < get_max_applications(user), with the offer itself
unchanged across iterations).  Returns the recorded successful results,
the final line state, and the number of apply_benefit invocations: the
loop stops on the first unsuccessful result (not recorded) and right
after recording a final result. -/
def Applicator.applyOfferLoop (env : Env) (o : ConditionalOffer) :
    Nat → Basket → Except String (List AppResult × Basket × Nat)
  | 0, b => .ok ([], b, 0)
  | n + 1, b => do
    let rb ← o.apply_benefit env b
    if ¬ rb.1.is_successful then .ok ([], rb.2, 1)
    else if rb.1.is_final then .ok ([rb.1], rb.2, 1)
    else do
      let rest ← Applicator.applyOfferLoop env o n rb.2
      .ok (rb.1 :: rest.1, rest.2.1, rest.2.2 + 1)

/-- Applicator.apply_offers (utils.py lines 45-61): each offer in order is
applied up to its maximum-applications budget, and the per-offer records
are accumulated.  Modelled from the spec: OfferApplications (the results
module is absent from the source) accumulates (offer, result) records, so
add is list append. -/
def Applicator.apply_offers (env : Env) (num_user_apps : Nat → Nat)
    (user : Option Nat) :
    List ConditionalOffer → Basket →
    Except String (List (ConditionalOffer × AppResult) × Basket)
  | [], b => .ok ([], b)
  | o :: rest, b => do
    let r ← Applicator.applyOfferLoop env o
      (o.get_max_applications num_user_apps user).toNat b
    let rr ← Applicator.apply_offers env num_user_apps user rest r.2.1
    .ok (r.1.map (fun x => (o, x)) ++ rr.1, rr.2)

/-- Applicator._get_available_offers (utils.py lines 82-97): offers whose
status is Open and which are either inside their date window (a present
start not after the cutoff, and a missing or not-passed end) or entirely
date-free. -/
def Applicator.get_available_offers (offers : List ConditionalOffer)
    (cutoff : Int) : List ConditionalOffer :=
  offers.filter (fun o =>
    o.status = ConditionalOffer.OPEN
    && ((match o.start_datetime with
         | some s => decide (s ≤ cutoff)
         | none => false)
        && (match o.end_datetime with
            | some e => decide (e ≥ cutoff)
            | none => true)
       || (o.start_datetime = none && o.end_datetime = none)))

/-!
Concrete fixtures shared by the scenario evaluations below, and small
rewriting lemmas for the Except monad.
-/








/-- A discountable product with no class and no categories. -/
def prodA : Product :=
  { id := 1, product_class_id := none, categories := [],
    is_discountable := true }

/-- A range that includes all products. -/
def rangeAll : Range :=
  { name := "All products", includes_all_products := true,
    included_product_ids := [], excluded_product_ids := [], class_ids := [],
    included_categories := [], proxy_class := none }

/-- A 20 percent discount benefit on all products. -/
def ben20 : Benefit :=
  { range := some rangeAll, type := Benefit.PERCENTAGE, value := 20,
    max_affected_items := none, proxy_class := none }

/-- A 0 percent discount benefit on all products. -/
def ben0 : Benefit :=
  { range := some rangeAll, type := Benefit.PERCENTAGE, value := 0,
    max_affected_items := none, proxy_class := none }

/-- A benefit with an unrecognised type discriminator. -/
def benBogus : Benefit :=
  { range := some rangeAll, type := "Bogus", value := 20,
    max_affected_items := none, proxy_class := none }

/-- A fixed-price shipping benefit with value 5.00. -/
def benShip5 : Benefit :=
  { range := none, type := Benefit.SHIPPING_FIXED_PRICE, value := 5,
    max_affected_items := none, proxy_class := none }

/-- A line of three units at 10.00, nothing discounted yet. -/
def lineA : Line :=
  { product := prodA, has_stockrecord := true, price := 10, quantity := 3,
    affected_quantity := 0, discount_total := 0 }

/-- A line of one unit at 10.00, nothing discounted yet. -/
def lineB : Line :=
  { product := prodA, has_stockrecord := true, price := 10, quantity := 1,
    affected_quantity := 0, discount_total := 0 }

def basketA : Basket := ⟨[lineA]⟩

def basketB : Basket := ⟨[lineB]⟩

/-- A type-None (always satisfied) condition on all products. -/
def condNone : Condition :=
  { range := some rangeAll, type := Condition.NONE, value := none,
    proxy_class := none }

/-- A condition with an unrecognised type and no custom class: its proxy
is the base Condition stub. -/
def condStub : Condition :=
  { range := some rangeAll, type := "Count", value := some 2,
    proxy_class := none }

/-- An open site offer pairing the None condition with the 20 percent
benefit, capped at one application per basket. -/
def offerA : ConditionalOffer :=
  { name := "A", offer_type := "Site", status := "Open",
    condition := condNone, benefit := ben20, priority := 0,
    start_datetime := none, end_datetime := none,
    max_global_applications := none, max_user_applications := none,
    max_basket_applications := some 1, max_discount := none,
    total_discount := 0, num_applications := 0, num_orders := 0 }

/-- An offer whose benefit type is unrecognised. -/
def offerBogus : ConditionalOffer :=
  { offerA with name := "Bogus", benefit := benBogus }

/-- An offer whose max_discount of 5.00 has been reached by its
total_discount of 5.00. -/
def offerC : ConditionalOffer :=
  { offerA with name := "C", max_discount := some 5, total_discount := 5 }

/-- A range that includes all products but excludes product 1. -/
def rangeX : Range :=
  { name := "All but 1", includes_all_products := true,
    included_product_ids := [], excluded_product_ids := [1], class_ids := [],
    included_categories := [], proxy_class := none }

/-- Minimum with an optional cap: the cap is ignored when absent. -/
def capMin (acc : ℤ) : Option ℤ → ℤ
  | none => acc
  | some v => min acc v

/-- The cap structure claim C2 describes for get_max_applications,
written from the claim text: 0 when a set (truthy, i.e. nonzero)
max_discount has been reached by total_discount, else the minimum of the
10000 sentinel, the per-user remainder (user known and cap set; floored
at 0), the basket cap (when set), and the global remainder (when set;
floored at 0). -/
def getMaxApplicationsClaim (num_user_apps : Nat → Nat)
    (o : ConditionalOffer) (user : Option Nat) : ℤ :=
  if (match o.max_discount with
      | some md => decide (md ≠ 0) && decide (o.total_discount ≥ md)
      | none => false) then 0
  else
    capMin (capMin (capMin 10000
      (match o.max_user_applications, user with
       | some m, some u =>
         if m ≠ 0 then some (max 0 ((m : ℤ) - (num_user_apps u : ℤ)))
         else none
       | _, _ => none))
      (o.max_basket_applications.bind (fun m =>
        if m ≠ 0 then some ((m : ℤ)) else none)))
      (o.max_global_applications.bind (fun m =>
        if m ≠ 0 then some (max 0 ((m : ℤ) - (o.num_applications : ℤ)))
        else none))

/-- lineA after the 20 percent benefit: all three units discounted. -/
def lineA3 : Line := { lineA with affected_quantity := 3, discount_total := 6 }

/-- The line-walk state produced by the zero-percent benefit on the
one-line basket: no discount, but one unit marked as affected. -/
def stC : PercState :=
  { lines := [{ lineB with affected_quantity := 1 }]
    discount := 0
    affected_items := 1
    affected_lines := [(0, 0, 1)]
    avail := none }

/-- The line at a basket position never exceeds its quantity with its
affected counter. -/
def basketInv (b : Basket) : Prop :=
  ∀ i, (b.lines.getD i dLine).affected_quantity
    ≤ (b.lines.getD i dLine).quantity

/-- The line-walk state of the 20 percent benefit on the three-unit
basket. -/
def stA : PercState :=
  { lines := [lineA3]
    discount := 6
    affected_items := 3
    affected_lines := [(0, 6, 3)]
    avail := none }






theorem exceptBind_ok {α β : Type} (a : α) (f : α → Except String β) :
    (Except.ok a >>= f) = f a := rfl

theorem exceptBind_error {α β : Type} (e : String)
    (f : α → Except String β) :
    ((Except.error e : Except String α) >>= f) = .error e := rfl

/-- C8: Exclusion wins over inclusion in Range membership: for a range
with no custom proxy class and a product that is not blacklisted, an id in
the excluded set makes contains_product false regardless of every
inclusion rule. -/
theorem C8_exclusion_wins (bl : Product → Bool)
    (rp : String → Product → Bool) (r : Range) (p : Product)
    (h1 : r.proxy_class = none) (h2 : bl p = false)
    (h3 : p.id ∈ r.excluded_product_ids) :
    Range.contains_product bl rp r p = false := by
  unfold Range.contains_product
  rw [h2, h1]
  simp [h3]

/-- Witness for C8 at a concrete range and product. -/
theorem C8_witness :
    (rangeX.proxy_class = none
      ∧ (fun _ : Product => false) prodA = false
      ∧ prodA.id ∈ rangeX.excluded_product_ids)
    ∧ Range.contains_product (fun _ => false) (fun _ _ => false)
        rangeX prodA = false :=
  ⟨⟨rfl, rfl, by decide⟩,
   C8_exclusion_wins (fun _ => false) (fun _ _ => false) rangeX prodA rfl
     rfl (by decide)⟩

/-- C9: Shipping benefit formulas: the absolute shipping benefit is
min(charge, value); the fixed-price benefit is max(0, charge - value),
so value 5.00 gives 3.00 on a charge of 8.00 and 0.00 on a charge of
3.00; and the percentage benefit is charge * value / 100 rounded to two
decimal places. -/
theorem C9_shipping_formulas :
    (∀ (b : Benefit) (charge : ℚ),
      ShippingAbsoluteDiscountBenefit.shipping_discount b charge
        = min charge b.value)
    ∧ (∀ (b : Benefit) (charge : ℚ),
      ShippingFixedPriceBenefit.shipping_discount b charge
        = max 0 (charge - b.value))
    ∧ (∀ (b : Benefit) (charge : ℚ),
      ShippingPercentageDiscountBenefit.shipping_discount b charge
        = roundHalfEven2dp (charge * b.value / 100))
    ∧ ShippingFixedPriceBenefit.shipping_discount benShip5 8 = 3
    ∧ ShippingFixedPriceBenefit.shipping_discount benShip5 3 = 0 := by
  refine ⟨fun b c => rfl, fun b c => ?_, fun b c => rfl, ?_, ?_⟩
  · unfold ShippingFixedPriceBenefit.shipping_discount
    rcases lt_or_ge c b.value with h | h
    · rw [if_pos h, (max_eq_left (by linarith))]
    · rw [if_neg (not_lt.mpr h), (max_eq_right (by linarith))]
  · norm_num [ShippingFixedPriceBenefit.shipping_discount, benShip5]
  · norm_num [ShippingFixedPriceBenefit.shipping_discount, benShip5]

/-- C10: A condition with no custom class and an unrecognised type kind
proxies to the base Condition object, which is never satisfied and
consumes nothing, so apply_benefit on an offer with such a condition is
always the zero discount with the basket untouched. -/
theorem C10_unknown_condition (env : Env) (c : Condition)
    (h1 : c.proxy_class = none) (h2 : c.type ≠ Condition.NONE) :
    c.proxy env = CondProxy.base c
    ∧ (∀ (o : ConditionalOffer) (b : Basket),
        (CondProxy.base c).is_satisfied o b = false)
    ∧ (∀ (o : ConditionalOffer) (b : Basket) (al : List (Nat × ℚ × Nat)),
        (CondProxy.base c).consume_items o b al = b)
    ∧ (∀ (o : ConditionalOffer) (b : Basket), o.condition = c →
        o.apply_benefit env b = .ok (ZERO_DISCOUNT, b)) := by
  have hp : c.proxy env = CondProxy.base c := by
    simp [Condition.proxy, h1, h2]
  refine ⟨hp, fun o b => rfl, fun o b al => rfl, fun o b ho => ?_⟩
  simp [ConditionalOffer.apply_benefit, ho, hp, CondProxy.is_satisfied]

/-- Witness for C10 at a concrete condition and offer. -/
theorem C10_witness :
    (condStub.proxy_class = none ∧ condStub.type ≠ Condition.NONE)
    ∧ ({ offerA with condition := condStub }.apply_benefit defaultEnv
        basketA = .ok (ZERO_DISCOUNT, basketA)) :=
  ⟨⟨rfl, by decide⟩,
   (C10_unknown_condition defaultEnv condStub rfl (by decide)).2.2.2
     { offerA with condition := condStub } basketA rfl⟩



/-- C2: get_max_applications returns 0 when a set max_discount has been
reached by total_discount, and otherwise the minimum of the 10000
sentinel and the three optional caps exactly as the claim describes:
the code agrees with the claim formula on every offer and user. -/
theorem C2_get_max_applications (num_user_apps : Nat → Nat)
    (o : ConditionalOffer) (user : Option Nat) :
    o.get_max_applications num_user_apps user
      = getMaxApplicationsClaim num_user_apps o user := by
  unfold ConditionalOffer.get_max_applications getMaxApplicationsClaim
    ConditionalOffer.max_applications_limits
  split_ifs
  · rfl
  · rcases o.max_user_applications with _ | m1 <;>
    rcases user with _ | u <;>
    rcases o.max_basket_applications with _ | m2 <;>
    rcases o.max_global_applications with _ | m3 <;>
    simp only [Option.bind, List.nil_append,
      List.cons_append, List.append_nil] <;>
    (try split_ifs) <;>
    simp only [capMin, List.nil_append, List.cons_append, List.append_nil,
      List.singleton_append, List.foldl_cons, List.foldl_nil, min_self]

/-- C4: after save() of a non-suspended offer the status is Consumed
exactly when get_max_applications() with no user is 0 and Open otherwise;
and in the scenario of a reached max_discount of 5.00, the maximum
applications is 0, saving yields status Consumed, and is_available is
false. -/
theorem C4_consumed_status (num_user_apps : Nat → Nat)
    (o : ConditionalOffer) (h : o.is_suspended = false) :
    ((o.save num_user_apps).status = ConditionalOffer.CONSUMED
      ↔ o.get_max_applications num_user_apps none = 0)
    ∧ ((o.save num_user_apps).status = ConditionalOffer.OPEN
      ↔ ¬ o.get_max_applications num_user_apps none = 0)
    ∧ offerC.get_max_applications num_user_apps none = 0
    ∧ (offerC.save num_user_apps).status = ConditionalOffer.CONSUMED
    ∧ (∀ (user : Option Nat) (t : Int),
        (offerC.save num_user_apps).is_available num_user_apps user t
          = false) := by
  have hgma : ∀ (user : Option Nat),
      offerC.get_max_applications num_user_apps user = 0 := by
    intro user
    unfold ConditionalOffer.get_max_applications
    rw [show offerC.max_discount = some 5 from rfl,
        show offerC.total_discount = 5 from rfl]
    norm_num
  have hgmaU : ∀ (user : Option Nat),
      ({ offerC with status := ConditionalOffer.CONSUMED }
        : ConditionalOffer).get_max_applications num_user_apps user = 0 := by
    intro user
    unfold ConditionalOffer.get_max_applications
    rw [show ({ offerC with status := ConditionalOffer.CONSUMED }
          : ConditionalOffer).max_discount = some 5 from rfl,
        show ({ offerC with status := ConditionalOffer.CONSUMED }
          : ConditionalOffer).total_discount = 5 from rfl]
    norm_num
  have hsave_eq : (o.save num_user_apps).status
      = (if o.get_max_applications num_user_apps none = 0
         then ConditionalOffer.CONSUMED else ConditionalOffer.OPEN) := by
    unfold ConditionalOffer.save
    rw [h]
    simp only [Bool.false_eq_true, not_false_eq_true, if_true]
    split_ifs <;> rfl
  have hsaveFull : offerC.save num_user_apps
      = { offerC with status := ConditionalOffer.CONSUMED } := by
    unfold ConditionalOffer.save
    rw [show offerC.is_suspended = false from rfl]
    simp only [Bool.false_eq_true, not_false_eq_true, if_true]
    rw [if_pos (hgma none)]
  refine ⟨?_, ?_, hgma none, by rw [hsaveFull], ?_⟩
  · rw [hsave_eq]
    split_ifs with h0
    · simp [h0]
    · simp only [h0, iff_false]
      decide
  · rw [hsave_eq]
    split_ifs with h0
    · simp only [h0, not_true, iff_false]
      decide
    · simp [h0]
  · intro user t
    rw [hsaveFull]
    unfold ConditionalOffer.is_available
    rw [show ({ offerC with status := ConditionalOffer.CONSUMED }
          : ConditionalOffer).is_suspended = false from by decide,
        show ({ offerC with status := ConditionalOffer.CONSUMED }
          : ConditionalOffer).start_datetime = none from rfl,
        show ({ offerC with status := ConditionalOffer.CONSUMED }
          : ConditionalOffer).end_datetime = none from rfl]
    simp [hgmaU user]


/-- Witness for C4 at the concrete offer with max_discount reached. -/
theorem C4_witness :
    offerA.is_suspended = false
    ∧ (((offerA.save (fun _ => 0)).status = ConditionalOffer.CONSUMED
        ↔ offerA.get_max_applications (fun _ => 0) none = 0)
      ∧ ((offerA.save (fun _ => 0)).status = ConditionalOffer.OPEN
        ↔ ¬ offerA.get_max_applications (fun _ => 0) none = 0)
      ∧ offerC.get_max_applications (fun _ => 0) none = 0
      ∧ (offerC.save (fun _ => 0)).status = ConditionalOffer.CONSUMED
      ∧ (∀ (user : Option Nat) (t : Int),
          (offerC.save (fun _ => 0)).is_available (fun _ => 0) user t
            = false)) :=
  ⟨rfl, C4_consumed_status (fun _ => 0) offerA rfl⟩

/-- C3 (amended): an unsatisfied condition makes apply_benefit the zero
discount with the basket untouched; a percentage application whose line
walk totals zero returns an unsuccessful result and never invokes
condition.consume_items (its outcome is independent of the condition
proxy and its basket is the raw line-walk state) - though that state may
already mark quantities as affected; a positive total yields a successful
BasketDiscount and the consume_items call. -/
theorem C3_zero_effect_amended :
    (∀ (env : Env) (o : ConditionalOffer) (b : Basket),
      (o.condition.proxy env).is_satisfied o b = false →
      o.apply_benefit env b = .ok (ZERO_DISCOUNT, b))
    ∧ (∀ (env : Env) (b : Benefit) (basket : Basket) (cond : CondProxy)
        (offer : ConditionalOffer) (dp mtd : Option ℚ) (st : PercState),
      PercentageDiscountBenefit.applyCore env b offer basket dp mtd
        = .ok st →
      st.discount = 0 →
      PercentageDiscountBenefit.apply env b basket cond offer dp mtd
          = .ok (.basketDiscount 0, Basket.mk st.lines)
        ∧ (AppResult.basketDiscount 0).is_successful = false
        ∧ (∀ (cond2 : CondProxy),
            PercentageDiscountBenefit.apply env b basket cond2 offer dp mtd
              = PercentageDiscountBenefit.apply env b basket cond offer dp
                  mtd))
    ∧ (∀ (env : Env) (b : Benefit) (basket : Basket) (cond : CondProxy)
        (offer : ConditionalOffer) (dp mtd : Option ℚ) (st : PercState),
      PercentageDiscountBenefit.applyCore env b offer basket dp mtd
        = .ok st →
      0 < st.discount →
      PercentageDiscountBenefit.apply env b basket cond offer dp mtd
          = .ok (.basketDiscount st.discount,
                 cond.consume_items offer (Basket.mk st.lines)
                   st.affected_lines)
        ∧ (AppResult.basketDiscount st.discount).is_successful = true) := by
  refine ⟨fun env o b h => ?_, fun env b basket cond offer dp mtd st hcore h0 => ?_, fun env b basket cond offer dp mtd st hcore h0 => ?_⟩
  · simp [ConditionalOffer.apply_benefit, h]
  · have happ : PercentageDiscountBenefit.apply env b basket cond offer dp mtd
        = .ok (.basketDiscount 0, Basket.mk st.lines) := by
      unfold PercentageDiscountBenefit.apply
      rw [hcore, exceptBind_ok, if_neg (by rw [h0]; exact lt_irrefl 0), h0]
    refine ⟨happ, by decide, fun cond2 => ?_⟩
    rw [happ]
    unfold PercentageDiscountBenefit.apply
    rw [hcore, exceptBind_ok, if_neg (by rw [h0]; exact lt_irrefl 0), h0]
  · constructor
    · unfold PercentageDiscountBenefit.apply
      rw [hcore, exceptBind_ok, if_pos h0]
    · simp [AppResult.is_successful, h0]



/-- C3 counterexample to the claim as stated: a zero-percent benefit on a
one-line basket computes a total discount of zero yet does not leave the
line's discount state unchanged - the unit is marked as affected. -/
theorem C3_counterexample :
    PercentageDiscountBenefit.apply defaultEnv ben0 basketB
        (.noneCond condNone) offerA none none
      = .ok (.basketDiscount 0,
             ⟨[{ lineB with affected_quantity := 1 }]⟩)
    ∧ (⟨[{ lineB with affected_quantity := 1 }]⟩ : Basket) ≠ basketB := by
  constructor
  · simp +decide [PercentageDiscountBenefit.apply,
      PercentageDiscountBenefit.applyCore, Benefit.get_applicable_lines,
      basketB, ben0, rangeAll, lineB, prodA, Range.contains_product,
      defaultEnv, Benefit.can_apply_benefit, unit_price,
      Line.quantity_without_discount, List.mergeSort, Basket.all_lines,
      List.enum, percentLoop, percentStep, Benefit.effective_max_affected_items,
      Benefit.round, Line.discount, CondProxy.consume_items, exceptBind_ok,
      exceptBind_error, ZERO_DISCOUNT]
    norm_num [roundDown2dp, percentStep, Line.discount, Benefit.round]
  · decide

/-- Witness for C3 at the zero-percent benefit fixture. -/
theorem C3_witness :
    (PercentageDiscountBenefit.applyCore defaultEnv ben0 offerA basketB
        none none
      = .ok stC
      ∧ stC.discount = 0)
    ∧ (PercentageDiscountBenefit.apply defaultEnv ben0 basketB
          (.noneCond condNone) offerA none none
        = .ok (.basketDiscount 0,
               Basket.mk ([{ lineB with affected_quantity := 1 }]))
      ∧ (AppResult.basketDiscount 0).is_successful = false
      ∧ (∀ (cond2 : CondProxy),
          PercentageDiscountBenefit.apply defaultEnv ben0 basketB cond2
              offerA none none
            = PercentageDiscountBenefit.apply defaultEnv ben0 basketB
                (.noneCond condNone) offerA none none)) := by
  have hcore : PercentageDiscountBenefit.applyCore defaultEnv ben0 offerA
      basketB none none
      = .ok stC := by
    unfold stC
    simp +decide [PercentageDiscountBenefit.applyCore,
      Benefit.get_applicable_lines, basketB, ben0, rangeAll, lineB, prodA,
      Range.contains_product, defaultEnv, Benefit.can_apply_benefit,
      unit_price, Line.quantity_without_discount, List.mergeSort,
      Basket.all_lines, List.enum, percentLoop, percentStep,
      Benefit.effective_max_affected_items, Benefit.round, Line.discount,
      exceptBind_ok, exceptBind_error]
    norm_num [roundDown2dp, percentStep, Line.discount, Benefit.round]
  exact ⟨⟨hcore, rfl⟩,
    (C3_zero_effect_amended.2.1 defaultEnv ben0 basketB
      (.noneCond condNone) offerA none none _ hcore rfl)⟩

/-- C6: the truncating two-decimal rounding of v/100 * price * quantity
never exceeds price * quantity for a percent in [0, 100]; and 20 percent
on a line of three units at 10.00 is exactly 6.00 with all three units
marked discounted. -/
theorem C6_rounding_boundedness :
    (∀ (v p : ℚ) (q : Nat), 0 ≤ v → v ≤ 100 → 0 ≤ p →
      roundDown2dp (v / 100 * p * (q : ℚ)) ≤ p * (q : ℚ))
    ∧ PercentageDiscountBenefit.apply defaultEnv ben20 basketA
        (.noneCond condNone) offerA none none
      = .ok (.basketDiscount 6, ⟨[lineA3]⟩) := by
  constructor
  · intro v p q hv0 hv100 hp
    have hq : (0 : ℚ) ≤ (q : ℚ) := Nat.cast_nonneg q
    have hx : (0 : ℚ) ≤ v / 100 * p * (q : ℚ) := by positivity
    unfold roundDown2dp
    rw [if_pos hx]
    have hfl : ((Int.floor (100 * (v / 100 * p * (q : ℚ)))) : ℚ)
        ≤ 100 * (v / 100 * p * (q : ℚ)) := Int.floor_le _
    have hle : v / 100 * p * (q : ℚ) ≤ p * (q : ℚ) := by
      nlinarith [mul_nonneg hp hq]
    linarith
  · simp +decide [PercentageDiscountBenefit.apply,
      PercentageDiscountBenefit.applyCore, Benefit.get_applicable_lines,
      basketA, ben20, rangeAll, lineA, prodA, Range.contains_product,
      defaultEnv, Benefit.can_apply_benefit, unit_price,
      Line.quantity_without_discount, List.mergeSort, Basket.all_lines,
      List.enum, percentLoop, percentStep, Benefit.effective_max_affected_items,
      Benefit.round, Line.discount, CondProxy.consume_items, exceptBind_ok,
      exceptBind_error, ZERO_DISCOUNT, lineA3]
    norm_num [roundDown2dp, percentStep, Line.discount, Benefit.round]

/-- Witness for C6 at percent 20, price 10, quantity 3. -/
theorem C6_witness :
    ((0 : ℚ) ≤ 20 ∧ (20 : ℚ) ≤ 100 ∧ (0 : ℚ) ≤ 10)
    ∧ roundDown2dp (20 / 100 * 10 * ((3 : Nat) : ℚ))
        ≤ 10 * ((3 : Nat) : ℚ) :=
  ⟨⟨by norm_num, by norm_num, by norm_num⟩,
   C6_rounding_boundedness.1 20 10 3 (by norm_num) (by norm_num)
     (by norm_num)⟩

/-- C5: the per-offer loop invokes apply_benefit at most its fuel (the
maximum-applications budget) many times, records only successful results,
stops at the first unsuccessful result (which leaves at most one
invocation unrecorded) and right after the first final result; and
apply_offers processes each offer through this loop with fuel
get_max_applications(user) before moving to the next offer. -/
theorem C5_applicator_loop :
    (∀ (env : Env) (o : ConditionalOffer) (fuel : Nat) (b : Basket)
        (rs : List AppResult) (b2 : Basket) (n : Nat),
      Applicator.applyOfferLoop env o fuel b = .ok (rs, b2, n) →
      n ≤ fuel
      ∧ n ≤ rs.length + 1
      ∧ (∀ r ∈ rs, r.is_successful = true)
      ∧ (∀ i, i + 1 < rs.length →
          (rs.getD i ZERO_DISCOUNT).is_final = false))
    ∧ (∀ (env : Env) (num_user_apps : Nat → Nat) (user : Option Nat)
        (o : ConditionalOffer) (rest : List ConditionalOffer) (b : Basket),
      Applicator.apply_offers env num_user_apps user (o :: rest) b
        = (Applicator.applyOfferLoop env o
            (o.get_max_applications num_user_apps user).toNat b
          >>= fun r =>
            Applicator.apply_offers env num_user_apps user rest r.2.1
          >>= fun rr =>
            .ok (r.1.map (fun x => (o, x)) ++ rr.1, rr.2))) := by
  constructor
  · intro env o fuel
    induction fuel with
    | zero =>
      intro b rs b2 n h
      unfold Applicator.applyOfferLoop at h
      injection h with h
      injection h with h1 h
      injection h with h2 h3
      subst h1; subst h3
      exact ⟨Nat.le_refl 0, Nat.zero_le _, by simp, by simp⟩
    | succ m ih =>
      intro b rs b2 n h
      unfold Applicator.applyOfferLoop at h
      cases happ : o.apply_benefit env b with
      | error e =>
        rw [happ, exceptBind_error] at h
        exact absurd h (by simp)
      | ok rb =>
        rw [happ, exceptBind_ok] at h
        by_cases hs : rb.1.is_successful = true
        · rw [if_neg (by simp [hs])] at h
          by_cases hf : rb.1.is_final = true
          · rw [if_pos hf] at h
            injection h with h
            injection h with h1 h
            injection h with h2 h3
            subst h1; subst h3
            refine ⟨Nat.succ_le_succ (Nat.zero_le m), by simp,
              by simp [hs], ?_⟩
            intro i hi
            simp at hi
          · rw [if_neg hf] at h
            cases hloop : Applicator.applyOfferLoop env o m rb.2 with
            | error e =>
              rw [hloop, exceptBind_error] at h
              exact absurd h (by simp)
            | ok trip =>
              rw [hloop, exceptBind_ok] at h
              injection h with h
              injection h with h1 h
              injection h with h2 h3
              obtain ⟨hle, hle2, hsucc, hfin⟩ :=
                ih rb.2 trip.1 trip.2.1 trip.2.2 (by rw [hloop])
              subst h1; subst h3
              refine ⟨Nat.succ_le_succ hle, by
                  simpa using Nat.succ_le_succ hle2, ?_, ?_⟩
              · intro r hr
                rcases List.mem_cons.mp hr with h | h
                · rw [h]; exact hs
                · exact hsucc r h
              · intro i hi
                cases i with
                | zero =>
                  simpa using (by simpa using hf : rb.1.is_final = false)
                | succ j =>
                  have hj : j + 1 < trip.1.length := by
                    simpa using hi
                  simpa using hfin j hj
        · rw [if_pos (by simp [hs])] at h
          injection h with h
          injection h with h1 h
          injection h with h2 h3
          subst h1; subst h3
          exact ⟨Nat.succ_le_succ (Nat.zero_le m), by simp, by simp,
            by simp⟩
  · intro env num_user_apps user o rest b
    rfl

/-- C7 (amended): an unrecognised benefit kind is not contained: the
benefit proxy raises, offer gathering (status and date filtering only)
still returns the offer, and an apply pass whose first offer has such a
benefit with a satisfied condition and a positive cap aborts with the
RuntimeError instead of completing over the remaining offers. -/
theorem C7_config_error_amended (env : Env) (num_user_apps : Nat → Nat)
    (user : Option Nat) (basket : Basket) (o : ConditionalOffer)
    (rest : List ConditionalOffer)
    (hb : o.benefit.proxy_class = none)
    (h1 : o.benefit.type ≠ Benefit.PERCENTAGE)
    (h2 : o.benefit.type ≠ Benefit.SHIPPING_ABSOLUTE)
    (h3 : o.benefit.type ≠ Benefit.SHIPPING_FIXED_PRICE)
    (h4 : o.benefit.type ≠ Benefit.SHIPPING_PERCENTAGE)
    (hsat : (o.condition.proxy env).is_satisfied o basket = true)
    (hcap : 0 < (o.get_max_applications num_user_apps user).toNat) :
    o.benefit.proxy env
        = .error ("Unrecognised benefit type (" ++ o.benefit.type ++ ")")
    ∧ Applicator.apply_offers env num_user_apps user (o :: rest) basket
        = .error ("Unrecognised benefit type (" ++ o.benefit.type ++ ")")
    ∧ (∀ (offers : List ConditionalOffer) (cutoff : Int),
        o ∈ offers → o.status = ConditionalOffer.OPEN →
        o.start_datetime = none → o.end_datetime = none →
        o ∈ Applicator.get_available_offers offers cutoff) := by
  have hproxy : o.benefit.proxy env
      = .error ("Unrecognised benefit type (" ++ o.benefit.type ++ ")") := by
    unfold Benefit.proxy
    rw [hb]
    rw [if_neg h1, if_neg h2, if_neg h3, if_neg h4]
  have happly : o.apply_benefit env basket
      = .error ("Unrecognised benefit type (" ++ o.benefit.type ++ ")") := by
    unfold ConditionalOffer.apply_benefit
    simp [hsat, hproxy, exceptBind_error]
  refine ⟨hproxy, ?_, ?_⟩
  · obtain ⟨k, hk⟩ : ∃ k,
        (o.get_max_applications num_user_apps user).toNat = k + 1 :=
      ⟨(o.get_max_applications num_user_apps user).toNat - 1,
       (Nat.succ_pred_eq_of_pos hcap).symm⟩
    unfold Applicator.apply_offers
    rw [hk]
    unfold Applicator.applyOfferLoop
    rw [happly, exceptBind_error, exceptBind_error]
  · intro offers cutoff hmem hstatus hstart hend
    unfold Applicator.get_available_offers
    refine List.mem_filter.mpr ⟨hmem, ?_⟩
    simp [hstatus, hstart, hend]

/-- C7 counterexample to the claim as stated: the mis-configured offer is
in the available set and the apply pass over it and a healthy offer
raises instead of completing. -/
theorem C7_counterexample :
    offerBogus ∈ Applicator.get_available_offers [offerBogus, offerA] 0
    ∧ Applicator.apply_offers defaultEnv (fun _ => 0) none
        [offerBogus, offerA] basketA
      = .error "Unrecognised benefit type (Bogus)" := by
  constructor
  · decide
  · simp [Applicator.apply_offers, Applicator.applyOfferLoop,
      ConditionalOffer.apply_benefit, ConditionalOffer.get_max_applications,
      ConditionalOffer.max_applications_limits, Condition.proxy,
      CondProxy.is_satisfied, Benefit.proxy, offerBogus, benBogus, offerA,
      condNone, Condition.NONE, Benefit.PERCENTAGE,
      Benefit.SHIPPING_ABSOLUTE, Benefit.SHIPPING_FIXED_PRICE,
      Benefit.SHIPPING_PERCENTAGE, exceptBind_ok, exceptBind_error]

/-- Witness for C5 at the concrete offer and basket. -/
theorem C5_witness :
    Applicator.applyOfferLoop defaultEnv offerA 1 basketA
      = .ok ([.basketDiscount 6], ⟨[lineA3]⟩, 1)
    ∧ (1 ≤ 1
      ∧ 1 ≤ [AppResult.basketDiscount 6].length + 1
      ∧ (∀ r ∈ [AppResult.basketDiscount 6], r.is_successful = true)
      ∧ (∀ i, i + 1 < [AppResult.basketDiscount 6].length →
          ([AppResult.basketDiscount 6].getD i ZERO_DISCOUNT).is_final
            = false)) := by
  have happ : offerA.apply_benefit defaultEnv basketA
      = .ok (.basketDiscount 6, ⟨[lineA3]⟩) := by
    unfold ConditionalOffer.apply_benefit
    simp +decide [Condition.proxy, condNone, offerA, Condition.NONE,
      CondProxy.is_satisfied, Benefit.proxy, ben20, Benefit.PERCENTAGE,
      exceptBind_ok, BenefitProxy.apply]
    simp +decide [PercentageDiscountBenefit.apply,
      PercentageDiscountBenefit.applyCore, Benefit.get_applicable_lines,
      basketA, ben20, rangeAll, lineA, prodA, Range.contains_product,
      defaultEnv, Benefit.can_apply_benefit, unit_price,
      Line.quantity_without_discount, List.mergeSort, Basket.all_lines,
      List.enum, percentLoop, percentStep, Benefit.effective_max_affected_items,
      Benefit.round, Line.discount, CondProxy.consume_items, exceptBind_ok,
      exceptBind_error, ZERO_DISCOUNT, lineA3]
    norm_num [roundDown2dp, percentStep, Line.discount, Benefit.round]
  have heval : Applicator.applyOfferLoop defaultEnv offerA 1 basketA
      = .ok ([.basketDiscount 6], ⟨[lineA3]⟩, 1) := by
    unfold Applicator.applyOfferLoop
    rw [happ, exceptBind_ok]
    norm_num [AppResult.is_successful, AppResult.is_final,
      Applicator.applyOfferLoop, exceptBind_ok]
  exact ⟨heval,
    C5_applicator_loop.1 defaultEnv offerA 1 basketA _ _ _ heval⟩

/-- Witness for C7 at the concrete mis-configured offer. -/
theorem C7_witness :
    (offerBogus.benefit.proxy_class = none
      ∧ offerBogus.benefit.type ≠ Benefit.PERCENTAGE
      ∧ offerBogus.benefit.type ≠ Benefit.SHIPPING_ABSOLUTE
      ∧ offerBogus.benefit.type ≠ Benefit.SHIPPING_FIXED_PRICE
      ∧ offerBogus.benefit.type ≠ Benefit.SHIPPING_PERCENTAGE
      ∧ (offerBogus.condition.proxy defaultEnv).is_satisfied offerBogus
          basketA = true
      ∧ 0 < (offerBogus.get_max_applications (fun _ => 0) none).toNat)
    ∧ (offerBogus.benefit.proxy defaultEnv
        = .error ("Unrecognised benefit type ("
            ++ offerBogus.benefit.type ++ ")")
      ∧ Applicator.apply_offers defaultEnv (fun _ => 0) none
          (offerBogus :: [offerA]) basketA
        = .error ("Unrecognised benefit type ("
            ++ offerBogus.benefit.type ++ ")")
      ∧ offerBogus ∈ Applicator.get_available_offers [offerBogus] 0) := by
  have h := C7_config_error_amended defaultEnv (fun _ => 0) none basketA
    offerBogus [offerA] rfl (by decide) (by decide) (by decide) (by decide)
    (by decide) (by decide)
  exact ⟨⟨rfl, by decide, by decide, by decide, by decide, by decide,
      by decide⟩,
    ⟨h.1, h.2.1, h.2.2 [offerBogus] 0 (List.mem_singleton.mpr rfl) rfl rfl
      rfl⟩⟩


/-- Pointwise effect of List.set as seen through getD with the default
line. -/
theorem getD_set_facts (ls : List Line) (n : Nat) (a : Line) (i : Nat) :
    (ls.set n a).getD i dLine
      = (if i = n ∧ n < ls.length then a else ls.getD i dLine) := by
  rw [List.getD_eq_getElem?_getD, List.getD_eq_getElem?_getD]
  rcases eq_or_ne i n with rfl | hne
  · by_cases hlt : i < ls.length
    · rw [List.getElem?_set_self hlt, if_pos ⟨rfl, hlt⟩]
      rfl
    · rw [if_neg (fun hc => hlt hc.2)]
      rw [List.set_eq_of_length_le (by omega)]
  · rw [List.getElem?_set_ne (Ne.symm hne), if_neg (fun hc => hne hc.1)]


/-- One iteration body preserves per-line quantity, never decreases the
affected counter, and adds at most the line's undiscounted quantity. -/
theorem percentStep_facts (env : Env) (dp : ℚ) (ma : Nat) (price : ℚ)
    (idx : Nat) (st : PercState) :
    (percentStep env dp ma price idx st).lines.length = st.lines.length
    ∧ ∀ i,
      ((percentStep env dp ma price idx st).lines.getD i dLine).quantity
          = (st.lines.getD i dLine).quantity
      ∧ (st.lines.getD i dLine).affected_quantity
          ≤ ((percentStep env dp ma price idx st).lines.getD i
              dLine).affected_quantity
      ∧ ((st.lines.getD i dLine).affected_quantity
            ≤ (st.lines.getD i dLine).quantity →
         ((percentStep env dp ma price idx st).lines.getD i
              dLine).affected_quantity
            ≤ ((percentStep env dp ma price idx st).lines.getD i
                dLine).quantity) := by
  unfold percentStep
  constructor
  · simp
  · intro i
    simp only [getD_set_facts]
    by_cases hcase : i = idx ∧ idx < st.lines.length
    · rw [if_pos hcase]
      have hqa : min (st.lines.getD idx dLine).quantity_without_discount
          (ma - st.affected_items)
          ≤ (st.lines.getD idx dLine).quantity
            - (st.lines.getD idx dLine).affected_quantity :=
        Nat.min_le_left _ _
      obtain ⟨rfl, _⟩ := hcase
      unfold Line.discount
      refine ⟨rfl, Nat.le_add_right _ _, ?_⟩
      intro hstart
      simp only
      omega
    · rw [if_neg hcase]
      exact ⟨rfl, Nat.le_refl _, fun hi => hi⟩

/-- The line walk preserves per-line quantity, never decreases the
affected counter, and keeps every line within its quantity. -/
theorem percentLoop_facts (env : Env) (dp? : Option ℚ) (ma : Nat) :
    ∀ (tuples : List (ℚ × Nat)) (st st2 : PercState),
    percentLoop env dp? ma tuples st = .ok st2 →
    st2.lines.length = st.lines.length
    ∧ ∀ i,
      (st2.lines.getD i dLine).quantity
          = (st.lines.getD i dLine).quantity
      ∧ (st.lines.getD i dLine).affected_quantity
          ≤ (st2.lines.getD i dLine).affected_quantity
      ∧ ((st.lines.getD i dLine).affected_quantity
            ≤ (st.lines.getD i dLine).quantity →
         (st2.lines.getD i dLine).affected_quantity
            ≤ (st2.lines.getD i dLine).quantity) := by
  intro tuples
  induction tuples with
  | nil =>
    intro st st2 h
    unfold percentLoop at h
    injection h with h
    subst h
    exact ⟨rfl, fun i => ⟨rfl, Nat.le_refl _, fun hi => hi⟩⟩
  | cons head rest ih =>
    intro st st2 h
    rcases head with ⟨price, idx⟩
    unfold percentLoop at h
    by_cases h1 : st.affected_items ≥ ma
    · rw [if_pos h1] at h
      injection h with h
      subst h
      exact ⟨rfl, fun i => ⟨rfl, Nat.le_refl _, fun hi => hi⟩⟩
    · rw [if_neg h1] at h
      by_cases h2 : st.avail = some 0
      · rw [if_pos h2] at h
        injection h with h
        subst h
        exact ⟨rfl, fun i => ⟨rfl, Nat.le_refl _, fun hi => hi⟩⟩
      · rw [if_neg h2] at h
        cases hdp : dp? with
        | none =>
          rw [hdp] at h
          exact absurd h (by simp)
        | some dp =>
          rw [hdp] at h ih
          simp only at h
          obtain ⟨hlen, hfacts⟩ := ih _ _ h
          obtain ⟨slen, sfacts⟩ := percentStep_facts env dp ma price idx st
          refine ⟨by rw [hlen, slen], ?_⟩
          intro i
          obtain ⟨hq, hmono, hinv⟩ := hfacts i
          obtain ⟨sq, smono, sinv⟩ := sfacts i
          exact ⟨by rw [hq, sq], Nat.le_trans smono hmono,
            fun hstart => hinv (sinv hstart)⟩

/-- Lines whose undiscounted quantity is zero (or which fail any other
filter) never appear among the applicable line tuples, and every tuple
points inside the basket. -/
theorem get_applicable_lines_facts (env : Env) (b : Benefit)
    (offer : ConditionalOffer) (basket : Basket) (range? : Option Range)
    (tuples : List (ℚ × Nat))
    (h : b.get_applicable_lines env offer basket range? = .ok tuples) :
    ∀ pi ∈ tuples, pi.2 < basket.lines.length
      ∧ (basket.lines.getD pi.2 dLine).quantity_without_discount ≠ 0 := by
  unfold Benefit.get_applicable_lines at h
  rcases hr : (match range? with | some r => some r | none => b.range) with
    _ | r
  · rw [hr] at h
    exact absurd h (by simp)
  · rw [hr] at h
    injection h with h
    intro pi hpi
    rw [← h] at hpi
    have hpi2 := List.mem_mergeSort.mp hpi
    obtain ⟨il, hil, hf⟩ := List.mem_filterMap.mp hpi2
    have hget : basket.lines[il.1]? = some il.2 :=
      List.mem_enum_iff_getElem?.mp hil
    have hlt : il.1 < basket.lines.length := by
      have := List.getElem?_eq_some_iff.mp hget
      exact this.1
    have hgetD : basket.lines.getD il.1 dLine = il.2 := by
      rw [List.getD_eq_getElem?_getD, hget]
      rfl
    simp only at hf
    split_ifs at hf with hc1 hc2 hc3 hc4
    injection hf with hf
    rw [← hf]
    exact ⟨hlt, by rw [hgetD]; exact hc4⟩

/-- The computation phase relates its output lines to the basket exactly
as the line walk does. -/
theorem applyCore_facts (env : Env) (b : Benefit)
    (offer : ConditionalOffer) (basket : Basket) (dp mtd : Option ℚ)
    (st : PercState)
    (h : PercentageDiscountBenefit.applyCore env b offer basket dp mtd
      = .ok st) :
    st.lines.length = basket.lines.length
    ∧ ∀ i,
      (st.lines.getD i dLine).quantity
          = (basket.lines.getD i dLine).quantity
      ∧ (basket.lines.getD i dLine).affected_quantity
          ≤ (st.lines.getD i dLine).affected_quantity
      ∧ ((basket.lines.getD i dLine).affected_quantity
            ≤ (basket.lines.getD i dLine).quantity →
         (st.lines.getD i dLine).affected_quantity
            ≤ (st.lines.getD i dLine).quantity) := by
  unfold PercentageDiscountBenefit.applyCore at h
  cases hga : b.get_applicable_lines env offer basket none with
  | error e =>
    rw [hga, exceptBind_error] at h
    exact absurd h (by simp)
  | ok tuples =>
    rw [hga, exceptBind_ok] at h
    exact percentLoop_facts env _ _ tuples _ st h

/-- PercentageDiscountBenefit.apply with a consumption-free condition
proxy preserves the per-line invariant. -/
theorem percentApply_preserves (env : Env) (b : Benefit)
    (basket : Basket) (cond : CondProxy) (offer : ConditionalOffer)
    (dp mtd : Option ℚ) (r : AppResult) (b2 : Basket)
    (hcons : ∀ (o : ConditionalOffer) (bb : Basket)
      (al : List (Nat × ℚ × Nat)), cond.consume_items o bb al = bb)
    (h : PercentageDiscountBenefit.apply env b basket cond offer dp mtd
      = .ok (r, b2))
    (hinv : basketInv basket) : basketInv b2 := by
  unfold PercentageDiscountBenefit.apply at h
  cases hcore : PercentageDiscountBenefit.applyCore env b offer basket dp
      mtd with
  | error e =>
    rw [hcore, exceptBind_error] at h
    exact absurd h (by simp)
  | ok st =>
    rw [hcore, exceptBind_ok] at h
    obtain ⟨hlen, hfacts⟩ := applyCore_facts env b offer basket dp mtd st
      hcore
    have hb2 : b2 = Basket.mk st.lines := by
      split_ifs at h with hpos
      · rw [hcons] at h
        injection h with h
        exact (congrArg Prod.snd h).symm
      · injection h with h
        exact (congrArg Prod.snd h).symm
    rw [hb2]
    intro i
    obtain ⟨hq, _, hkeep⟩ := hfacts i
    exact hkeep (hinv i)

/-- apply_benefit on an offer with no custom condition or benefit class
preserves the per-line invariant. -/
theorem apply_benefit_preserves (env : Env) (o : ConditionalOffer)
    (b : Basket) (r : AppResult) (b2 : Basket)
    (hc : o.condition.proxy_class = none)
    (hben : o.benefit.proxy_class = none)
    (h : o.apply_benefit env b = .ok (r, b2))
    (hinv : basketInv b) : basketInv b2 := by
  have hcons : ∀ (oo : ConditionalOffer) (bb : Basket)
      (al : List (Nat × ℚ × Nat)),
      (o.condition.proxy env).consume_items oo bb al = bb := by
    intro oo bb al
    unfold Condition.proxy
    rw [hc]
    split_ifs <;> rfl
  unfold ConditionalOffer.apply_benefit at h
  by_cases hsat : (o.condition.proxy env).is_satisfied o b = true
  · rw [if_neg (by simp [hsat])] at h
    unfold Benefit.proxy at h
    rw [hben] at h
    split_ifs at h with h1 h2 h3 h4
    · rw [exceptBind_ok] at h
      exact percentApply_preserves env o.benefit b
        (o.condition.proxy env) o none none r b2 hcons h hinv
    · rw [exceptBind_ok] at h
      unfold BenefitProxy.apply ShippingBenefit.apply at h
      rw [hcons] at h
      injection h with h
      have hb : b = b2 := by simpa using congrArg Prod.snd h
      exact hb ▸ hinv
    · rw [exceptBind_ok] at h
      unfold BenefitProxy.apply ShippingBenefit.apply at h
      rw [hcons] at h
      injection h with h
      have hb : b = b2 := by simpa using congrArg Prod.snd h
      exact hb ▸ hinv
    · rw [exceptBind_ok] at h
      unfold BenefitProxy.apply ShippingBenefit.apply at h
      rw [hcons] at h
      injection h with h
      have hb : b = b2 := by simpa using congrArg Prod.snd h
      exact hb ▸ hinv
    · rw [exceptBind_error] at h
      exact absurd h (by simp)
  · rw [if_pos (by simp [hsat])] at h
    injection h with h
    have hb : b = b2 := by simpa using congrArg Prod.snd h
    exact hb ▸ hinv

/-- The per-offer while loop preserves the per-line invariant when the
offer has no custom classes. -/
theorem applyOfferLoop_preserves (env : Env) (o : ConditionalOffer)
    (hc : o.condition.proxy_class = none)
    (hben : o.benefit.proxy_class = none) :
    ∀ (fuel : Nat) (b : Basket) (rs : List AppResult) (b2 : Basket)
      (n : Nat),
    Applicator.applyOfferLoop env o fuel b = .ok (rs, b2, n) →
    basketInv b → basketInv b2 := by
  intro fuel
  induction fuel with
  | zero =>
    intro b rs b2 n h hinv
    unfold Applicator.applyOfferLoop at h
    injection h with h
    injection h with h1 h
    injection h with h2 h3
    exact h2 ▸ hinv
  | succ m ih =>
    intro b rs b2 n h hinv
    unfold Applicator.applyOfferLoop at h
    cases happ : o.apply_benefit env b with
    | error e =>
      rw [happ, exceptBind_error] at h
      exact absurd h (by simp)
    | ok rb =>
      rw [happ, exceptBind_ok] at h
      have hinv2 : basketInv rb.2 :=
        apply_benefit_preserves env o b rb.1 rb.2 hc hben
          (by rw [happ]) hinv
      by_cases hs : rb.1.is_successful = true
      · rw [if_neg (by simp [hs])] at h
        by_cases hf : rb.1.is_final = true
        · rw [if_pos hf] at h
          injection h with h
          injection h with h1 h
          injection h with h2 h3
          exact h2 ▸ hinv2
        · rw [if_neg hf] at h
          cases hloop : Applicator.applyOfferLoop env o m rb.2 with
          | error e =>
            rw [hloop, exceptBind_error] at h
            exact absurd h (by simp)
          | ok trip =>
            rw [hloop, exceptBind_ok] at h
            injection h with h
            injection h with h1 h
            injection h with h2 h3
            have := ih rb.2 trip.1 trip.2.1 trip.2.2 (by rw [hloop]) hinv2
            exact h2 ▸ this
      · rw [if_pos (by simp [hs])] at h
        injection h with h
        injection h with h1 h
        injection h with h2 h3
        exact h2 ▸ hinv2

/-- The full pass preserves the per-line invariant for offers with no
custom classes. -/
theorem apply_offers_preserves (env : Env) (nua : Nat → Nat)
    (user : Option Nat) :
    ∀ (offers : List ConditionalOffer) (b : Basket)
      (apps : List (ConditionalOffer × AppResult)) (b2 : Basket),
    (∀ o ∈ offers, o.condition.proxy_class = none
      ∧ o.benefit.proxy_class = none) →
    Applicator.apply_offers env nua user offers b = .ok (apps, b2) →
    basketInv b → basketInv b2 := by
  intro offers
  induction offers with
  | nil =>
    intro b apps b2 hcs h hinv
    unfold Applicator.apply_offers at h
    injection h with h
    injection h with h1 h2
    exact h2 ▸ hinv
  | cons o rest ih =>
    intro b apps b2 hcs h hinv
    unfold Applicator.apply_offers at h
    cases hloop : Applicator.applyOfferLoop env o
        (o.get_max_applications nua user).toNat b with
    | error e =>
      rw [hloop, exceptBind_error] at h
      exact absurd h (by simp)
    | ok trip =>
      rw [hloop, exceptBind_ok] at h
      have hinv2 : basketInv trip.2.1 :=
        applyOfferLoop_preserves env o (hcs o (by simp)).1
          (hcs o (by simp)).2 _ b trip.1 trip.2.1 trip.2.2
          (by rw [hloop]) hinv
      cases hrest : Applicator.apply_offers env nua user rest trip.2.1 with
      | error e =>
        rw [hrest, exceptBind_error] at h
        exact absurd h (by simp)
      | ok rr =>
        rw [hrest, exceptBind_ok] at h
        injection h with h
        injection h with h1 h2
        have := ih trip.2.1 rr.1 rr.2
          (fun oo hoo => hcs oo (List.mem_cons_of_mem o hoo))
          (by rw [hrest]) hinv2
        exact h2 ▸ this

/-- C1: benefits never double-discount.  Lines with no undiscounted
quantity are excluded from the applicable lines; one percentage
application marks per line at most its undiscounted quantity (so the
affected counter stays within the quantity); and a whole pass of any
offer set without custom classes keeps every line's benefit-marked
quantity within its quantity. -/
theorem C1_no_double_discount :
    (∀ (env : Env) (b : Benefit) (offer : ConditionalOffer)
        (basket : Basket) (range? : Option Range)
        (tuples : List (ℚ × Nat)),
      b.get_applicable_lines env offer basket range? = .ok tuples →
      ∀ pi ∈ tuples,
        (basket.lines.getD pi.2 dLine).quantity_without_discount ≠ 0)
    ∧ (∀ (env : Env) (b : Benefit) (offer : ConditionalOffer)
        (basket : Basket) (dp mtd : Option ℚ) (st : PercState),
      PercentageDiscountBenefit.applyCore env b offer basket dp mtd
        = .ok st →
      ∀ i, (basket.lines.getD i dLine).affected_quantity
            ≤ (basket.lines.getD i dLine).quantity →
        (st.lines.getD i dLine).affected_quantity
            - (basket.lines.getD i dLine).affected_quantity
          ≤ (basket.lines.getD i dLine).quantity_without_discount
        ∧ (st.lines.getD i dLine).affected_quantity
            ≤ (st.lines.getD i dLine).quantity)
    ∧ (∀ (env : Env) (nua : Nat → Nat) (user : Option Nat)
        (offers : List ConditionalOffer) (basket : Basket)
        (apps : List (ConditionalOffer × AppResult)) (basket2 : Basket),
      (∀ o ∈ offers, o.condition.proxy_class = none
        ∧ o.benefit.proxy_class = none) →
      Applicator.apply_offers env nua user offers basket
        = .ok (apps, basket2) →
      basketInv basket → basketInv basket2) := by
  refine ⟨?_, ?_, ?_⟩
  · intro env b offer basket range? tuples h pi hpi
    exact (get_applicable_lines_facts env b offer basket range? tuples h
      pi hpi).2
  · intro env b offer basket dp mtd st h i hstart
    obtain ⟨hlen, hfacts⟩ := applyCore_facts env b offer basket dp mtd st h
    obtain ⟨hq, hmono, hkeep⟩ := hfacts i
    have hkept := hkeep hstart
    simp only [Line.quantity_without_discount]
    omega
  · intro env nua user offers basket apps basket2 hcs h hinv
    exact apply_offers_preserves env nua user offers basket apps basket2
      hcs h hinv


/-- Witness for C1 at the 20 percent benefit on the three-unit basket. -/
theorem C1_witness :
    (PercentageDiscountBenefit.applyCore defaultEnv ben20 offerA basketA
        none none = .ok stA
      ∧ (basketA.lines.getD 0 dLine).affected_quantity
          ≤ (basketA.lines.getD 0 dLine).quantity)
    ∧ ((stA.lines.getD 0 dLine).affected_quantity
          - (basketA.lines.getD 0 dLine).affected_quantity
        ≤ (basketA.lines.getD 0 dLine).quantity_without_discount
      ∧ (stA.lines.getD 0 dLine).affected_quantity
          ≤ (stA.lines.getD 0 dLine).quantity) := by
  have hcore : PercentageDiscountBenefit.applyCore defaultEnv ben20 offerA
      basketA none none = .ok stA := by
    unfold stA
    simp +decide [PercentageDiscountBenefit.applyCore,
      Benefit.get_applicable_lines, basketA, ben20, rangeAll, lineA, prodA,
      Range.contains_product, defaultEnv, Benefit.can_apply_benefit,
      unit_price, Line.quantity_without_discount, List.mergeSort,
      Basket.all_lines, List.enum, percentLoop, percentStep,
      Benefit.effective_max_affected_items, Benefit.round, Line.discount,
      exceptBind_ok, exceptBind_error, lineA3]
    norm_num [roundDown2dp, percentStep, Line.discount, Benefit.round]
  exact ⟨⟨hcore, by decide⟩,
    C1_no_double_discount.2.1 defaultEnv ben20 offerA basketA none none
      stA hcore 0 (by decide)⟩

end Oscar

